import Mathlib

/-!
Shallow embedding of the ec2_management_cli repository (package `ec2_manager`):
the `EC2Manager` orchestrator in `src/ec2_manager/core.py`, the configuration
loader and token generator in `src/ec2_manager/utils.py`, the exception
taxonomy in `src/ec2_manager/exceptions.py`, and the command dispatch shape of
`src/ec2_manager/cli.py`.

Modelling conventions:
* Python exceptions become an explicit error type `PyErr`; fallible code
  returns `Except PyErr _`.
* The boto3 provider is an external collaborator; each operation is embedded
  as a pure function of the provider data it reads (current instance state,
  response pages, metric datapoints) and returns, besides its result, the
  ordered list of provider calls it issued (`List ProviderCall`), so that
  "issues no mutating call" is a statement about that trace.
* Python dict/YAML values are embedded as `Yaml`; mappings are association
  lists (YAML mappings and boto3 responses have unique keys).
* Python floats are embedded as rationals.
* `uuid.uuid4()` is a fresh random value per call; the random supply is
  modelled by a draw index, with the defining property that distinct draws
  give distinct tokens (the uniqueness assumption the code relies on).
-/

namespace EC2Cli

/-- Error taxonomy of `src/ec2_manager/exceptions.py` (`ConfigError`,
`AWSAuthError`, `OperationError`) together with the Python builtins the code
actually raises (`ValueError` in `load_config`, `TypeError` from `int()`). -/
inductive PyErr where
  | configError (msg : String)
  | awsAuthError (msg : String)
  | operationError (msg : String)
  | valueError (msg : String)
  | typeError (msg : String)
deriving DecidableEq, Repr

def PyErr.isConfigError : PyErr → Bool
  | .configError _ => true
  | _ => false

def PyErr.isAuthError : PyErr → Bool
  | .awsAuthError _ => true
  | _ => false

def PyErr.isOperationError : PyErr → Bool
  | .operationError _ => true
  | _ => false

def PyErr.isValueError : PyErr → Bool
  | .valueError _ => true
  | _ => false

/-- Embedded YAML / Python values as produced by `yaml.safe_load` and passed
through the config dict. Mappings are association lists with unique keys. -/
inductive Yaml where
  | null
  | bool (b : Bool)
  | int (n : Int)
  | str (s : String)
  | arr (xs : List Yaml)
  | map (kvs : List (String × Yaml))

/-- A Python `Dict[str, Any]`, as in the `config` parameter of
`EC2Manager.create_instance`. -/
abbrev PyDict := List (String × Yaml)

/-- `d.get(k)` on a Python dict: `None` (here `none`) when the key is absent. -/
def dictGet (d : PyDict) (k : String) : Option Yaml :=
  (d.find? (fun kv => kv.1 == k)).map (fun kv => kv.2)

/-- `v.get(k)` when `v` is known to be a mapping; the source only calls `.get`
on values that are dicts (guaranteed by `load_config` for the config values
this is applied to), so the non-mapping case is unreachable there. -/
def Yaml.getKey : Yaml → String → Option Yaml
  | .map kvs, k => dictGet kvs k
  | _, _ => none

/-- Python truthiness of an embedded value (`if value:`). -/
def Yaml.truthy : Yaml → Bool
  | .null => false
  | .bool b => b
  | .int n => n != 0
  | .str s => s != ""
  | .arr xs => !xs.isEmpty
  | .map kvs => !kvs.isEmpty

/-- Python `int(value)` as used on `MinCount` / `MaxCount`: identity on ints,
0/1 on bools, decimal parse on strings, `TypeError` otherwise. -/
def pyInt : Yaml → Except PyErr Int
  | .int n => .ok n
  | .bool b => .ok (if b then 1 else 0)
  | .str s =>
      match s.trim.toInt? with
      | some n => .ok n
      | none => .error (.valueError "invalid literal for int()")
  | _ => .error (.typeError "int() argument must be a string or a number")

/-- Idempotency token produced by `generate_client_token` in
`src/ec2_manager/utils.py` (`str(uuid.uuid4())`). The uuid4 random supply is
modelled by the index of the draw; the rendered string is opaque to the rest
of the code, so only the draw identity matters. -/
structure ClientToken where
  draw : Nat
deriving DecidableEq, Repr

/-- `generate_client_token()` mints the token of the current uuid4 draw. -/
def generate_client_token (draw : Nat) : ClientToken :=
  ⟨draw⟩

/-- The keyword arguments assembled for `ec2_client.run_instances(**params)`
in `EC2Manager.create_instance`. Optional keys that the source only sets
behind a truthiness test are `Option`-valued (`none` = key absent). -/
structure RunParams where
  imageId : Option Yaml
  instanceType : Option Yaml
  minCount : Int
  maxCount : Int
  clientToken : ClientToken
  keyName : Option Yaml
  subnetId : Option Yaml
  securityGroupIds : Option Yaml
  userData : Option Yaml
  tagSpecifications : Option Yaml

/-- Calls issued to the boto3 clients, in program order. -/
inductive ProviderCall where
  | describeInstance (instanceId : String)
  | waitInstanceStopped (instanceId : String)
  | waitInstanceRunning (instanceId : String)
  | waitInstanceTerminated (instanceId : String)
  | stopInstances (instanceId : String)
  | startInstances (instanceId : String)
  | terminateInstances (instanceId : String)
  | runInstances (params : RunParams)
  | waitUntilRunning (instanceId : String)
  | reloadInstance (instanceId : String)

/-- Whether a provider call mutates provider state. Describe/reload reads and
waiter polls are read-only; stop/start/terminate/run submissions mutate. -/
def ProviderCall.isMutating : ProviderCall → Bool
  | .stopInstances _ => true
  | .startInstances _ => true
  | .terminateInstances _ => true
  | .runInstances _ => true
  | _ => false

/-- First `run_instances` submission in a call trace, with its parameters. -/
def runParamsOf (calls : List ProviderCall) : Option RunParams :=
  calls.findSome? (fun c =>
    match c with
    | .runInstances p => some p
    | _ => none)

/-- Result dict of the lifecycle operations: `{"InstanceId": ..., "State":
..., "Message": ...?}`. -/
structure LifecycleResult where
  instanceId : String
  state : String
  message : Option String
deriving DecidableEq, Repr

/-- `EC2Manager.stop_instance` (core.py lines 144-160), as a function of the
state read by `_get_instance_state`. The waiter object created in the
already-stopped branch only issues a poll when the state is `stopping`. -/
def stop_instance (instance_id : String) (state : String) :
    LifecycleResult × List ProviderCall :=
  if state = "stopped" ∨ state = "stopping" then
    (⟨instance_id, "stopped", some "Already stopped"⟩,
      [.describeInstance instance_id] ++
        (if state = "stopping" then [.waitInstanceStopped instance_id] else []))
  else if state ≠ "running" then
    (⟨instance_id, state, some "Not in running state"⟩,
      [.describeInstance instance_id])
  else
    (⟨instance_id, "stopped", none⟩,
      [.describeInstance instance_id, .stopInstances instance_id,
        .waitInstanceStopped instance_id])

/-- `EC2Manager.start_instance` (core.py lines 162-178). -/
def start_instance (instance_id : String) (state : String) :
    LifecycleResult × List ProviderCall :=
  if state = "running" ∨ state = "pending" then
    (⟨instance_id, "running", some "Already running"⟩,
      [.describeInstance instance_id] ++
        (if state = "pending" then [.waitInstanceRunning instance_id] else []))
  else if state ≠ "stopped" then
    (⟨instance_id, state, some "Not in stopped state"⟩,
      [.describeInstance instance_id])
  else
    (⟨instance_id, "running", none⟩,
      [.describeInstance instance_id, .startInstances instance_id,
        .waitInstanceRunning instance_id])

/-- `EC2Manager.terminate_instance` (core.py lines 180-194). Unlike stop and
start, the source has no ineligible-state branch: any state other than
`shutting-down` / `terminated` falls through to the mutating call. -/
def terminate_instance (instance_id : String) (state : String) :
    LifecycleResult × List ProviderCall :=
  if state = "shutting-down" ∨ state = "terminated" then
    (⟨instance_id, "terminated", some "Already terminated"⟩,
      [.describeInstance instance_id] ++
        (if state = "shutting-down" then [.waitInstanceTerminated instance_id] else []))
  else
    (⟨instance_id, "terminated", none⟩,
      [.describeInstance instance_id, .terminateInstances instance_id,
        .waitInstanceTerminated instance_id])

/-- Outcome of `ec2_client.run_instances`: credential failure, a provider
rejection (`ClientError`), or a response whose `Instances` entry holds the
identifiers of the created instances (`none` = key absent). Each response
item is represented by its `InstanceId`. -/
inductive ProviderRunResult where
  | noCreds
  | clientError (msg : String)
  | success (respInstances : Option (List String))

/-- Snapshot fields read back from `ec2_res.Instance(id)` after
`wait_until_running` and `reload`. -/
structure CreateView where
  stateName : Option String
  privateIp : Option String
  publicIp : Option String
deriving DecidableEq, Repr

/-- Result dict of `create_instance`. -/
structure CreateOutcome where
  instanceId : String
  state : Option String
  privateIpAddress : Option String
  publicIpAddress : Option String
deriving DecidableEq, Repr

/-- Parameter assembly of `create_instance` (core.py lines 83-111): no field
validation happens here; `ImageId` / `InstanceType` are copied through
possibly-absent, counts go through `int(...)` with default 1, and the
optional keys are set only when their value is truthy. -/
def build_run_params (config : PyDict) (client_token : ClientToken) :
    Except PyErr RunParams :=
  let instance_cfg := (dictGet config "instance").getD (.map [])
  let network_cfg := (dictGet config "network").getD (.map [])
  let user_data := (dictGet config "user_data").getD .null
  let tags := (dictGet config "tags").getD (.arr [])
  match pyInt ((instance_cfg.getKey "MinCount").getD (.int 1)),
        pyInt ((instance_cfg.getKey "MaxCount").getD (.int 1)) with
  | .error e, _ => .error e
  | .ok _, .error e => .error e
  | .ok minCount, .ok maxCount =>
      .ok
        { imageId := instance_cfg.getKey "ImageId"
          instanceType := instance_cfg.getKey "InstanceType"
          minCount := minCount
          maxCount := maxCount
          clientToken := client_token
          keyName :=
            if ((instance_cfg.getKey "KeyName").getD .null).truthy then
              instance_cfg.getKey "KeyName"
            else none
          subnetId :=
            if ((network_cfg.getKey "SubnetId").getD .null).truthy then
              network_cfg.getKey "SubnetId"
            else none
          securityGroupIds :=
            if ((network_cfg.getKey "SecurityGroupIds").getD .null).truthy then
              network_cfg.getKey "SecurityGroupIds"
            else none
          userData := if user_data.truthy then some user_data else none
          tagSpecifications :=
            if tags.truthy then
              some (Yaml.arr [Yaml.map
                [("ResourceType", Yaml.str "instance"), ("Tags", tags)]])
            else none }

/-- Submission and response handling of `create_instance` (core.py lines
113-134): the run call is issued, credential and client errors are
re-classified, an empty `Instances` list raises `OperationError` before any
indexing, and otherwise the first identifier is waited on and reloaded. -/
def submit_run (params : RunParams) (rr : ProviderRunResult)
    (reload : String → CreateView) :
    Except PyErr CreateOutcome × List ProviderCall :=
  match rr with
  | .noCreds =>
      (.error (.awsAuthError "Unable to locate credentials. Check AWS_PROFILE/SSO."),
        [.runInstances params])
  | .clientError msg =>
      (.error (.operationError ("Failed to create instance: " ++ msg)),
        [.runInstances params])
  | .success respInstances =>
      match respInstances.getD [] with
      | [] =>
          (.error (.operationError "No instance created."), [.runInstances params])
      | instance_id :: _ =>
          let v := reload instance_id
          (.ok
            { instanceId := instance_id
              state := v.stateName
              privateIpAddress := v.privateIp
              publicIpAddress := v.publicIp },
            [.runInstances params, .waitUntilRunning instance_id,
              .reloadInstance instance_id])

/-- `EC2Manager.create_instance` (core.py lines 77-134): mints a fresh client
token, assembles the run parameters, and submits. -/
def create_instance (config : PyDict) (draw : Nat) (rr : ProviderRunResult)
    (reload : String → CreateView) :
    Except PyErr CreateOutcome × List ProviderCall :=
  let client_token := generate_client_token draw
  match build_run_params config client_token with
  | .error e => (.error e, [])
  | .ok params => submit_run params rr reload

/-- `load_config` in `src/ec2_manager/utils.py` (lines 53-65), as a function
of the value `yaml.safe_load` parsed from the file. The source replaces a
falsy parse (`None` from an empty file, but also any falsy value) with `{}`
via `or {}`, then checks for a top-level mapping and a dict-valued
`instance` key, raising `ValueError` otherwise; on success the parsed data
is returned unchanged. -/
def load_config (parsed : Yaml) : Except PyErr Yaml :=
  let data := if parsed.truthy then parsed else Yaml.map []
  match data with
  | .map kvs =>
      match dictGet kvs "instance" with
      | some (.map _) => .ok (Yaml.map kvs)
      | some _ => .error (.valueError "Missing \x27instance\x27 section in configuration")
      | none => .error (.valueError "Missing \x27instance\x27 section in configuration")
  | _ => .error (.valueError "Configuration file must define a YAML mapping at the top level")

/-- `EC2Manager.__init__` (core.py lines 25-39): boto3 session and client
construction; a missing/invalid credential condition surfaces as
`AWSAuthError`. `credsOk` abstracts whether construction finds credentials. -/
def mkEC2Manager (credsOk : Bool) : Except PyErr Unit :=
  if credsOk then .ok ()
  else .error (.awsAuthError "AWS credentials not found. Use IAM roles or SSO profiles.")

/-- The CLI commands of `src/ec2_manager/cli.py` that construct `EC2Manager`
first and then invoke one manager method (`instance create` additionally
loads the config file before construction and is modelled separately by
`instance_create_cmd`). -/
inductive CliOp where
  | instanceList
  | instanceStop
  | instanceStart
  | instanceTerminate
  | volumeList
  | volumeAttach
  | volumeDetach
  | volumeSetDeleteOnTerm
  | reportInventory
  | reportCostOptimize
deriving DecidableEq, Repr

/-- Shared shape of those CLI handlers: construct the manager, then run the
requested operation (`body` gives the behavior of the manager method once a
manager exists). Construction failure short-circuits with no provider call. -/
def cli_command (credsOk : Bool) (op : CliOp)
    (body : CliOp → Except PyErr Unit × List ProviderCall) :
    Except PyErr Unit × List ProviderCall :=
  match mkEC2Manager credsOk with
  | .error e => (.error e, [])
  | .ok _ => body op

/-- The `instance create` CLI handler (cli.py lines 46-57): `load_config`
runs first, then `EC2Manager` is constructed, then `create_instance` is
invoked with the loaded mapping. `load_config` only ever succeeds with a
mapping, so the fallthrough branch is unreachable. -/
def instance_create_cmd (parsed : Yaml) (credsOk : Bool) (draw : Nat)
    (rr : ProviderRunResult) (reload : String → CreateView) :
    Except PyErr CreateOutcome × List ProviderCall :=
  match load_config parsed with
  | .error e => (.error e, [])
  | .ok data =>
      match mkEC2Manager credsOk with
      | .error e => (.error e, [])
      | .ok _ =>
          match data with
          | .map kvs => create_instance kvs draw rr reload
          | _ => (.error (.typeError "config must be a mapping"), [])

/-- One entry of a volume's `Attachments` list as read by `list_volumes`;
only `InstanceId` is consumed. -/
structure VolAttachment where
  instanceId : Option String
deriving DecidableEq, Repr

/-- One volume dict from a `describe_volumes` page, restricted to the keys
`list_volumes` reads. `attachments` is `vol.get("Attachments", [])`
(`none` = key absent). -/
structure RawVolume where
  volumeId : Option String
  size : Option Int
  state : Option String
  volumeType : Option String
  iops : Option Int
  throughput : Option Int
  availabilityZone : Option String
  attachments : Option (List VolAttachment)
deriving DecidableEq, Repr

/-- Result dict built per volume by `list_volumes`. -/
structure VolumeRecord where
  volumeId : Option String
  sizeGiB : Option Int
  state : Option String
  volumeType : Option String
  iops : Option Int
  throughput : Option Int
  availabilityZone : Option String
  attachedInstances : List (Option String)
deriving DecidableEq, Repr

/-- The record constructed for one volume inside the `list_volumes` loop
(core.py lines 210-223). -/
def mkVolumeRecord (vol : RawVolume) : VolumeRecord :=
  { volumeId := vol.volumeId
    sizeGiB := vol.size
    state := vol.state
    volumeType := vol.volumeType
    iops := vol.iops
    throughput := vol.throughput
    availabilityZone := vol.availabilityZone
    attachedInstances := (vol.attachments.getD []).map (fun a => a.instanceId) }

/-- `EC2Manager.list_volumes` (core.py lines 197-224), as a function of the
pages the paginator yields (the optional status filter is applied
provider-side and so is already reflected in the pages). The loop appends
one record per volume in page order. -/
def list_volumes (pages : List (List RawVolume)) : List VolumeRecord :=
  pages.foldl
    (fun results page =>
      page.foldl (fun results vol => results ++ [mkVolumeRecord vol]) results)
    []

/-- One CloudWatch datapoint as consumed by `_average_cpu_utilization`:
`dp.get("Average", 0.0)` (`none` = `Average` key absent). -/
structure Datapoint where
  average : Option ℚ
deriving DecidableEq, Repr

/-- The simple unweighted mean `sum(dp.get("Average", 0.0) for dp in
datapoints) / len(datapoints)` (core.py line 328). -/
def meanAvg (datapoints : List Datapoint) : ℚ :=
  (datapoints.map (fun dp => dp.average.getD 0)).sum / datapoints.length

/-- `EC2Manager._average_cpu_utilization` (core.py lines 306-328), as a
function of the `Datapoints` of the metric response: `None` when there are
no datapoints, otherwise the simple mean of the bucket averages. -/
def average_cpu_utilization (datapoints : List Datapoint) : Option ℚ :=
  if datapoints.isEmpty then none
  else some (meanAvg datapoints)

/-- One instance dict of a reservation as consumed by the idle-instance loop
of `find_wasteful_resources`; `cpuDatapoints` carries the `Datapoints` of
the CloudWatch response for this instance's `InstanceId`. -/
structure WasteInstance where
  instanceId : Option String
  instanceType : Option String
  stateName : Option String
  cpuDatapoints : List Datapoint
deriving DecidableEq, Repr

/-- One volume dict from the `status=available` filtered `describe_volumes`
pages of `find_wasteful_resources`. -/
structure OrphanVolumeRaw where
  volumeId : Option String
  size : Option Int
  state : Option String
deriving DecidableEq, Repr

/-- The provider data `find_wasteful_resources` reads in one region:
the filtered volume pages, and the instance pages as yielded
(pages → reservations → instances). -/
structure WasteRegion where
  region : String
  volumePages : List (List OrphanVolumeRaw)
  instancePages : List (List (List WasteInstance))
deriving DecidableEq, Repr

/-- One row of `report["idle_instances"]`. -/
structure IdleFinding where
  region : String
  instanceId : Option String
  averageCPU14d : ℚ
  instanceType : Option String
deriving DecidableEq, Repr

/-- One row of `report["orphaned_volumes"]`. -/
structure OrphanFinding where
  region : String
  volumeId : Option String
  sizeGiB : Option Int
  state : Option String
deriving DecidableEq, Repr

/-- The report dict of `find_wasteful_resources`. -/
structure WasteReport where
  idle_instances : List IdleFinding
  orphaned_volumes : List OrphanFinding
deriving DecidableEq, Repr

/-- Floor of a rational (`q.num` and `q.den` are reduced with positive
denominator, so euclidean division of them is the floor). -/
def floorQ (q : ℚ) : ℤ :=
  Int.ediv q.num q.den

/-- Round-half-to-even to an integer, the tie rule of Python's `round`. -/
def roundHalfEven (q : ℚ) : ℤ :=
  if q - floorQ q < 1 / 2 then floorQ q
  else if q - floorQ q > 1 / 2 then floorQ q + 1
  else if floorQ q % 2 = 0 then floorQ q else floorQ q + 1

/-- Python's `round(x, 2)` on the embedded (exact-rational) values. -/
def pyRound2 (q : ℚ) : ℚ :=
  (roundHalfEven (q * 100) : ℚ) / 100

/-- The row appended for a flagged instance (core.py lines 365-372). -/
def mkIdleFinding (region : String) (inst : WasteInstance) : IdleFinding :=
  { region := region
    instanceId := inst.instanceId
    averageCPU14d := pyRound2 (meanAvg inst.cpuDatapoints)
    instanceType := inst.instanceType }

/-- Body of the idle-instance loop of `find_wasteful_resources` (core.py
lines 359-372) for one instance dict: skip unless the state name is
`running`, fetch the average, and append a finding only when the average
exists and is strictly below the threshold. -/
def processInstance (thr : ℚ) (region : String) (report : WasteReport)
    (inst : WasteInstance) : WasteReport :=
  if inst.stateName = some "running" then
    match average_cpu_utilization inst.cpuDatapoints with
    | some avg =>
        if avg < thr then
          { report with
              idle_instances := report.idle_instances ++ [mkIdleFinding region inst] }
        else report
    | none => report
  else report

/-- Body of the orphaned-volume loop (core.py lines 343-353) for one volume. -/
def processOrphanVolume (region : String) (report : WasteReport)
    (vol : OrphanVolumeRaw) : WasteReport :=
  { report with
      orphaned_volumes := report.orphaned_volumes ++
        [{ region := region, volumeId := vol.volumeId, sizeGiB := vol.size,
           state := vol.state }] }

/-- The per-region body of `find_wasteful_resources` (core.py lines 334-372):
first every volume of the filtered pages is appended as an orphan finding,
then every instance of every reservation of every page is processed. -/
def find_wasteful_region (thr : ℚ) (report : WasteReport) (rd : WasteRegion) :
    WasteReport :=
  let report1 := rd.volumePages.foldl
    (fun rep page => page.foldl (processOrphanVolume rd.region) rep) report
  rd.instancePages.foldl
    (fun rep page =>
      page.foldl
        (fun rep reservation =>
          reservation.foldl (processInstance thr rd.region) rep)
        rep)
    report1

/-- `EC2Manager.find_wasteful_resources` (core.py lines 330-373), as a
function of the per-region provider data, iterating the target regions in
order over an initially empty report. -/
def find_wasteful_resources (thr : ℚ) (regions : List WasteRegion) :
    WasteReport :=
  regions.foldl (find_wasteful_region thr) ⟨[], []⟩

/-- The idle-instance condition as the specification states it: the state
name is `running`, the metric response has at least one datapoint, and the
simple unweighted mean of the bucket averages is strictly below the
threshold. -/
def isIdle (thr : ℚ) (inst : WasteInstance) : Bool :=
  decide (inst.stateName = some "running") &&
    !inst.cpuDatapoints.isEmpty && decide (meanAvg inst.cpuDatapoints < thr)

/-- Declarative description of one region's idle findings: the flagged
instances of the region's flattened instance pages, in order. -/
def idleOfRegion (thr : ℚ) (rd : WasteRegion) : List IdleFinding :=
  ((rd.instancePages.flatten.flatten).filter (isIdle thr)).map
    (mkIdleFinding rd.region)

/-! ## Theorems -/

/-- C1 (amended): for `stop_instance` and `start_instance`, a current state
that is neither the target terminal state, nor the matching transitional
state, nor the eligible source state yields the unchanged current state with
the not-eligible message and no mutating provider call; `terminate_instance`
however has no such branch and issues the mutating terminate call from every
state other than `terminated` / `shutting-down`. -/
theorem C1_lifecycle_ineligible (id s : String) :
    (s ≠ "stopped" → s ≠ "stopping" → s ≠ "running" →
      stop_instance id s =
        (⟨id, s, some "Not in running state"⟩, [.describeInstance id]) ∧
      (stop_instance id s).2.all (fun c => !c.isMutating) = true) ∧
    (s ≠ "running" → s ≠ "pending" → s ≠ "stopped" →
      start_instance id s =
        (⟨id, s, some "Not in stopped state"⟩, [.describeInstance id]) ∧
      (start_instance id s).2.all (fun c => !c.isMutating) = true) ∧
    (s ≠ "shutting-down" → s ≠ "terminated" →
      (terminate_instance id s).2.any ProviderCall.isMutating = true) := by
  refine ⟨fun h1 h2 h3 => ?_, fun h1 h2 h3 => ?_, fun h1 h2 => ?_⟩
  · simp [stop_instance, h1, h2, h3, ProviderCall.isMutating]
  · simp [start_instance, h1, h2, h3, ProviderCall.isMutating]
  · simp [terminate_instance, h1, h2, ProviderCall.isMutating]

/-- C1 witness: the amended statement at the concrete state `pending`. -/
theorem C1_lifecycle_ineligible_witness :
    stop_instance "i-0" "pending" =
      (⟨"i-0", "pending", some "Not in running state"⟩, [.describeInstance "i-0"]) ∧
    (terminate_instance "i-0" "pending").2.any ProviderCall.isMutating = true := by
  refine ⟨((C1_lifecycle_ineligible "i-0" "pending").1 ?_ ?_ ?_).1,
    (C1_lifecycle_ineligible "i-0" "pending").2.2 ?_ ?_⟩ <;> decide

/-- C1 counterexample: `terminate_instance` requested while the instance is
`pending` (a state incompatible with the terminate edge, whose eligible
sources are `running` and `stopped`) does issue the mutating terminate call,
and its result does not report the unchanged current state. -/
theorem C1_counterexample :
    (terminate_instance "i-9" "pending").2.any ProviderCall.isMutating = true ∧
    (terminate_instance "i-9" "pending").1.state = "terminated" ∧
    (terminate_instance "i-9" "pending").1.message = none := by
  refine ⟨?_, ?_, ?_⟩ <;> rfl

/-- C2: each lifecycle operation, on an instance already in its target
terminal state, returns that terminal state with the "Already ..." message
and issues no mutating call; in the matching transitional state it
additionally polls the corresponding waiter (blocking until the transition
resolves) and returns the same no-op result. -/
theorem C2_lifecycle_already (id s : String) :
    (s = "stopped" ∨ s = "stopping" →
      (stop_instance id s).1 = ⟨id, "stopped", some "Already stopped"⟩ ∧
      (stop_instance id s).2.all (fun c => !c.isMutating) = true ∧
      (s = "stopping" →
        (stop_instance id s).2 = [.describeInstance id, .waitInstanceStopped id])) ∧
    (s = "running" ∨ s = "pending" →
      (start_instance id s).1 = ⟨id, "running", some "Already running"⟩ ∧
      (start_instance id s).2.all (fun c => !c.isMutating) = true ∧
      (s = "pending" →
        (start_instance id s).2 = [.describeInstance id, .waitInstanceRunning id])) ∧
    (s = "shutting-down" ∨ s = "terminated" →
      (terminate_instance id s).1 = ⟨id, "terminated", some "Already terminated"⟩ ∧
      (terminate_instance id s).2.all (fun c => !c.isMutating) = true ∧
      (s = "shutting-down" →
        (terminate_instance id s).2 =
          [.describeInstance id, .waitInstanceTerminated id])) := by
  refine ⟨fun h => ?_, fun h => ?_, fun h => ?_⟩
  · rcases h with h | h <;> subst h <;>
      simp [stop_instance, ProviderCall.isMutating]
  · rcases h with h | h <;> subst h <;>
      simp [start_instance, ProviderCall.isMutating]
  · rcases h with h | h <;> subst h <;>
      simp [terminate_instance, ProviderCall.isMutating]

/-- C2 witness: the no-op results at the terminal state `stopped` and the
transitional state `shutting-down`. -/
theorem C2_lifecycle_already_witness :
    (stop_instance "i-1" "stopped").1 = ⟨"i-1", "stopped", some "Already stopped"⟩ ∧
    (terminate_instance "i-1" "shutting-down").2 =
      [.describeInstance "i-1", .waitInstanceTerminated "i-1"] := by
  exact ⟨((C2_lifecycle_already "i-1" "stopped").1 (Or.inl rfl)).1,
    ((C2_lifecycle_already "i-1" "shutting-down").2.2 (Or.inl rfl)).2.2 rfl⟩

/-- Helper: whatever the provider answers, `submit_run` issues exactly one
run submission, carrying the assembled parameters. -/
theorem runParamsOf_submit_run (p : RunParams) (rr : ProviderRunResult)
    (reload : String → CreateView) :
    runParamsOf (submit_run p rr reload).2 = some p := by
  cases rr with
  | noCreds => rfl
  | clientError msg => rfl
  | success o =>
      cases o with
      | none => rfl
      | some l =>
          cases l with
          | nil => rfl
          | cons a t => rfl

/-- Helper: inversion of `build_run_params`: the assembled parameters carry
the minted client token and the (possibly absent) `ImageId` / `InstanceType`
values straight from the instance section. -/
theorem build_run_params_fields (config : PyDict) (tok : ClientToken)
    (p : RunParams) (hp : build_run_params config tok = .ok p) :
    p.clientToken = tok ∧
    p.imageId = ((dictGet config "instance").getD (.map [])).getKey "ImageId" ∧
    p.instanceType = ((dictGet config "instance").getD (.map [])).getKey "InstanceType" := by
  simp only [build_run_params] at hp
  split at hp
  · exact absurd hp (by simp)
  · exact absurd hp (by simp)
  · injection hp with h
    subst h
    exact ⟨rfl, rfl, rfl⟩

/-- Helper: when the instance section has no `MinCount` / `MaxCount` keys,
parameter assembly succeeds and both counts default to 1. -/
theorem build_run_params_default_counts (config : PyDict) (tok : ClientToken)
    (hmin : ((dictGet config "instance").getD (.map [])).getKey "MinCount" = none)
    (hmax : ((dictGet config "instance").getD (.map [])).getKey "MaxCount" = none) :
    ∃ p, build_run_params config tok = .ok p ∧ p.minCount = 1 ∧ p.maxCount = 1 := by
  simp only [build_run_params]
  rw [hmin, hmax]
  exact ⟨_, rfl, rfl, rfl⟩

/-- Helper: when parameter assembly succeeds, `create_instance` submits the
run request with exactly those parameters. -/
theorem create_instance_submits (config : PyDict) (draw : Nat)
    (rr : ProviderRunResult) (reload : String → CreateView) (p : RunParams)
    (hp : build_run_params config (generate_client_token draw) = .ok p) :
    runParamsOf (create_instance config draw rr reload).2 = some p := by
  simp only [create_instance, hp]
  exact runParamsOf_submit_run p rr reload

/-- C3 (amended): `create_instance` does not validate `imageId` /
`instanceType` locally: whenever the counts coerce (in particular always,
when they are absent), the run request is submitted, with the missing fields
passed through as absent values rather than rejected before submission. -/
theorem C3_no_field_validation (config : PyDict) (draw : Nat)
    (rr : ProviderRunResult) (reload : String → CreateView) (p : RunParams)
    (hp : build_run_params config (generate_client_token draw) = .ok p) :
    runParamsOf (create_instance config draw rr reload).2 = some p ∧
    p.imageId = ((dictGet config "instance").getD (.map [])).getKey "ImageId" ∧
    p.instanceType = ((dictGet config "instance").getD (.map [])).getKey "InstanceType" := by
  have hf := build_run_params_fields config _ p hp
  exact ⟨create_instance_submits config draw rr reload p hp, hf.2.1, hf.2.2⟩

/-- C3 witness: a config whose instance section is empty. -/
theorem C3_no_field_validation_witness :
    runParamsOf (create_instance [("instance", Yaml.map [])] 0
        (.success (some ["i-1"])) (fun _ => ⟨some "running", none, none⟩)).2 =
      some
        { imageId := none, instanceType := none, minCount := 1, maxCount := 1,
          clientToken := generate_client_token 0, keyName := none, subnetId := none,
          securityGroupIds := none, userData := none, tagSpecifications := none } := by
  exact (C3_no_field_validation [("instance", Yaml.map [])] 0
    (.success (some ["i-1"])) (fun _ => ⟨some "running", none, none⟩)
    { imageId := none, instanceType := none, minCount := 1, maxCount := 1,
      clientToken := generate_client_token 0, keyName := none, subnetId := none,
      securityGroupIds := none, userData := none, tagSpecifications := none } rfl).1

/-- C3 counterexample: with a config that has an instance section but no
`imageId` / `instanceType`, `create_instance` still submits the run request
(the claim says the request is rejected with no run call submitted), and the
submitted parameters carry both fields as absent. -/
theorem C3_counterexample :
    (runParamsOf (create_instance [("instance", Yaml.map [])] 0
        (.success (some ["i-2"])) (fun _ => ⟨some "running", none, none⟩)).2).isSome =
      true ∧
    (runParamsOf (create_instance [("instance", Yaml.map [])] 0
        (.success (some ["i-2"])) (fun _ => ⟨some "running", none, none⟩)).2).map
        RunParams.imageId = some none ∧
    (runParamsOf (create_instance [("instance", Yaml.map [])] 0
        (.success (some ["i-2"])) (fun _ => ⟨some "running", none, none⟩)).2).map
        RunParams.instanceType = some none := by
  refine ⟨rfl, rfl, rfl⟩

/-- C4: a run response carrying zero instances, whether the `Instances` key
is an empty list or absent altogether, makes `create_instance` fail with
`OperationError("No instance created.")`; the guard precedes any indexing of
the instance list, and the embedded function is total, so no
null-pointer-style fault is possible. -/
theorem C4_empty_run_response (config : PyDict) (draw : Nat)
    (reload : String → CreateView) (p : RunParams)
    (hp : build_run_params config (generate_client_token draw) = .ok p) :
    (create_instance config draw (.success (some [])) reload).1 =
      .error (.operationError "No instance created.") ∧
    (create_instance config draw (.success none) reload).1 =
      .error (.operationError "No instance created.") := by
  constructor <;> simp [create_instance, hp, submit_run]

/-- C4 witness: empty and absent `Instances` on a concrete config. -/
theorem C4_empty_run_response_witness :
    (create_instance [("instance", Yaml.map [])] 0 (.success (some []))
        (fun _ => ⟨none, none, none⟩)).1 =
      .error (.operationError "No instance created.") ∧
    (create_instance [("instance", Yaml.map [])] 0 (.success none)
        (fun _ => ⟨none, none, none⟩)).1 =
      .error (.operationError "No instance created.") := by
  exact C4_empty_run_response [("instance", Yaml.map [])] 0
    (fun _ => ⟨none, none, none⟩)
    { imageId := none, instanceType := none, minCount := 1, maxCount := 1,
      clientToken := generate_client_token 0, keyName := none, subnetId := none,
      securityGroupIds := none, userData := none, tagSpecifications := none } rfl

/-- C5: every invocation of `create_instance` mints the token of the current
uuid4 draw (inside the call, independent of the configuration) and submits
it as the `ClientToken` of the run request; distinct draws, hence two
distinct invocations, carry distinct tokens. -/
theorem C5_fresh_client_token (config : PyDict) (draw : Nat)
    (rr : ProviderRunResult) (reload : String → CreateView) (p : RunParams)
    (hp : build_run_params config (generate_client_token draw) = .ok p) :
    (runParamsOf (create_instance config draw rr reload).2).map
        RunParams.clientToken = some (generate_client_token draw) ∧
    ∀ d1 d2 : Nat, d1 ≠ d2 →
      generate_client_token d1 ≠ generate_client_token d2 := by
  constructor
  · rw [create_instance_submits config draw rr reload p hp]
    exact congrArg some (build_run_params_fields config _ p hp).1
  · intro d1 d2 hne hEq
    exact hne (congrArg ClientToken.draw hEq)

/-- C5 witness: the token of draw 0 is submitted, and draws 0 and 1 give
distinct tokens. -/
theorem C5_fresh_client_token_witness :
    (runParamsOf (create_instance [("instance", Yaml.map [])] 0
        (.success (some ["i-1"])) (fun _ => ⟨none, none, none⟩)).2).map
        RunParams.clientToken = some (generate_client_token 0) ∧
    generate_client_token 0 ≠ generate_client_token 1 := by
  have h := C5_fresh_client_token [("instance", Yaml.map [])] 0
    (.success (some ["i-1"])) (fun _ => ⟨none, none, none⟩)
    { imageId := none, instanceType := none, minCount := 1, maxCount := 1,
      clientToken := generate_client_token 0, keyName := none, subnetId := none,
      securityGroupIds := none, userData := none, tagSpecifications := none } rfl
  exact ⟨h.1, h.2 0 1 (by decide)⟩

/-- Helper: one step of the idle-instance loop appends exactly the finding
of a flagged instance and nothing otherwise. -/
theorem processInstance_idle (thr : ℚ) (rn : String) (rep : WasteReport)
    (inst : WasteInstance) :
    (processInstance thr rn rep inst).idle_instances =
      rep.idle_instances ++
        (if isIdle thr inst then [mkIdleFinding rn inst] else []) := by
  by_cases hst : inst.stateName = some "running"
  · by_cases hdp : inst.cpuDatapoints.isEmpty
    · simp [processInstance, average_cpu_utilization, isIdle, hst, hdp]
    · by_cases hlt : meanAvg inst.cpuDatapoints < thr
      · simp [processInstance, average_cpu_utilization, isIdle, hst, hdp, hlt]
      · simp [processInstance, average_cpu_utilization, isIdle, hst, hdp, hlt]
  · simp [processInstance, isIdle, hst]

/-- Helper: the idle-instance loop over one reservation list. -/
theorem foldl_processInstance_idle (thr : ℚ) (rn : String) :
    ∀ (l : List WasteInstance) (rep : WasteReport),
      (l.foldl (processInstance thr rn) rep).idle_instances =
        rep.idle_instances ++ (l.filter (isIdle thr)).map (mkIdleFinding rn) := by
  intro l
  induction l with
  | nil => intro rep; simp
  | cons a t ih =>
      intro rep
      rw [List.foldl_cons, ih, processInstance_idle]
      by_cases h : isIdle thr a <;> simp [h, List.filter_cons]

/-- Helper: the idle-instance loop over the reservations of one page. -/
theorem foldl_page_idle (thr : ℚ) (rn : String) :
    ∀ (page : List (List WasteInstance)) (rep : WasteReport),
      ((page.foldl
          (fun rep reservation =>
            reservation.foldl (processInstance thr rn) rep) rep).idle_instances) =
        rep.idle_instances ++
          (page.flatten.filter (isIdle thr)).map (mkIdleFinding rn) := by
  intro page
  induction page with
  | nil => intro rep; simp
  | cons resv t ih =>
      intro rep
      rw [List.foldl_cons, ih, foldl_processInstance_idle]
      simp [List.filter_append, List.map_append]

/-- Helper: the idle-instance loop over all pages. -/
theorem foldl_pages_idle (thr : ℚ) (rn : String) :
    ∀ (pages : List (List (List WasteInstance))) (rep : WasteReport),
      ((pages.foldl
          (fun rep page =>
            page.foldl
              (fun rep reservation =>
                reservation.foldl (processInstance thr rn) rep) rep)
          rep).idle_instances) =
        rep.idle_instances ++
          (pages.flatten.flatten.filter (isIdle thr)).map (mkIdleFinding rn) := by
  intro pages
  induction pages with
  | nil => intro rep; simp
  | cons page t ih =>
      intro rep
      rw [List.foldl_cons, ih, foldl_page_idle]
      simp [List.filter_append, List.map_append]

/-- Helper: the orphaned-volume loop never touches the idle list. -/
theorem foldl_orphans_idle (rn : String) :
    ∀ (pages : List (List OrphanVolumeRaw)) (rep : WasteReport),
      ((pages.foldl
          (fun rep page => page.foldl (processOrphanVolume rn) rep)
          rep).idle_instances) = rep.idle_instances := by
  have inner : ∀ (page : List OrphanVolumeRaw) (rep : WasteReport),
      ((page.foldl (processOrphanVolume rn) rep).idle_instances) =
        rep.idle_instances := by
    intro page
    induction page with
    | nil => intro rep; rfl
    | cons v t ih => intro rep; rw [List.foldl_cons, ih]; rfl
  intro pages
  induction pages with
  | nil => intro rep; rfl
  | cons page t ih => intro rep; rw [List.foldl_cons, ih, inner]

/-- Helper: one region contributes exactly its flagged running instances to
the idle list. -/
theorem find_wasteful_region_idle (thr : ℚ) (rep : WasteReport)
    (rd : WasteRegion) :
    (find_wasteful_region thr rep rd).idle_instances =
      rep.idle_instances ++ idleOfRegion thr rd := by
  unfold find_wasteful_region idleOfRegion
  rw [foldl_pages_idle, foldl_orphans_idle]

/-- Helper: the region loop over any accumulator. -/
theorem foldl_regions_idle (thr : ℚ) :
    ∀ (regions : List WasteRegion) (rep : WasteReport),
      ((regions.foldl (find_wasteful_region thr) rep).idle_instances) =
        rep.idle_instances ++ (regions.map (idleOfRegion thr)).flatten := by
  intro regions
  induction regions with
  | nil => intro rep; simp
  | cons rd t ih =>
      intro rep
      rw [List.foldl_cons, ih, find_wasteful_region_idle]
      simp

/-- C6: `find_wasteful_resources` flags, per region and in order, exactly the
running instances whose metric response has at least one datapoint and whose
simple unweighted mean of the bucket averages is strictly below the
threshold (the condition `isIdle`); concretely, at threshold 5, an instance
whose samples average 3.2 is flagged, one averaging exactly 5.0 is not
(strict less-than), and one with zero datapoints is excluded from both
lists of the report. -/
theorem C6_idle_flagging (thr : ℚ) (regions : List WasteRegion) :
    (find_wasteful_resources thr regions).idle_instances =
      (regions.map (fun rd =>
        ((rd.instancePages.flatten.flatten).filter (isIdle thr)).map
          (mkIdleFinding rd.region))).flatten ∧
    (find_wasteful_resources 5
        [⟨"r1", [],
          [[[⟨some "i-a", some "t3.micro", some "running",
              [⟨some (16 / 5)⟩, ⟨some (16 / 5)⟩]⟩]]]⟩]).idle_instances =
      [⟨"r1", some "i-a", 16 / 5, some "t3.micro"⟩] ∧
    (find_wasteful_resources 5
        [⟨"r1", [],
          [[[⟨some "i-b", some "t3.micro", some "running",
              [⟨some 5⟩]⟩]]]⟩]).idle_instances = [] ∧
    (find_wasteful_resources 5
        [⟨"r1", [],
          [[[⟨some "i-c", some "t3.micro", some "running", []⟩]]]⟩]) =
      ⟨[], []⟩ := by
  refine ⟨?_, ?_, ?_, ?_⟩
  · rw [find_wasteful_resources, foldl_regions_idle]
    rfl
  · simp only [find_wasteful_resources, find_wasteful_region, List.foldl_cons,
      List.foldl_nil, processInstance, average_cpu_utilization, meanAvg,
      mkIdleFinding, pyRound2, roundHalfEven, floorQ]
    norm_num
  · simp only [find_wasteful_resources, find_wasteful_region, List.foldl_cons,
      List.foldl_nil, processInstance, average_cpu_utilization, meanAvg]
    norm_num
  · simp [find_wasteful_resources, find_wasteful_region, processInstance,
      average_cpu_utilization]

/-- Helper: the `list_volumes` append loop builds one record per volume of
the flattened pages, in page order. -/
theorem list_volumes_eq (pages : List (List RawVolume)) :
    list_volumes pages = pages.flatten.map mkVolumeRecord := by
  have inner : ∀ (page : List RawVolume) (acc : List VolumeRecord),
      page.foldl (fun results vol => results ++ [mkVolumeRecord vol]) acc =
        acc ++ page.map mkVolumeRecord := by
    intro page
    induction page with
    | nil => intro acc; simp
    | cons v t ih => intro acc; rw [List.foldl_cons, ih]; simp
  have outer : ∀ (ps : List (List RawVolume)) (acc : List VolumeRecord),
      ps.foldl
          (fun results page =>
            page.foldl (fun results vol => results ++ [mkVolumeRecord vol]) results)
          acc =
        acc ++ ps.flatten.map mkVolumeRecord := by
    intro ps
    induction ps with
    | nil => intro acc; simp
    | cons page t ih =>
        intro acc
        rw [List.foldl_cons, inner, ih]
        simp
  simpa using outer pages []

/-- C7: each `VolumeRecord` produced by `list_volumes` carries as
`AttachedInstances` exactly the sequence of `InstanceId` entries of the
corresponding volume's attachment list, in the same order: the records are
built one per volume in page order, and the field is the order-preserving
projection of the attachments. -/
theorem C7_attached_instances (pages : List (List RawVolume)) :
    (list_volumes pages).map VolumeRecord.attachedInstances =
      pages.flatten.map (fun vol =>
        (vol.attachments.getD []).map VolAttachment.instanceId) ∧
    ∀ vol : RawVolume,
      (mkVolumeRecord vol).attachedInstances =
        (vol.attachments.getD []).map VolAttachment.instanceId := by
  constructor
  · rw [list_volumes_eq, List.map_map]
    rfl
  · intro vol
    rfl

/-- Helper: every failure of `load_config` is a `ValueError` (the source
raises `ValueError`, not the repository's own `ConfigError`). -/
theorem load_config_errors_are_valueError (parsed : Yaml) (e : PyErr)
    (he : load_config parsed = .error e) : e.isValueError = true := by
  simp only [load_config] at he
  split at he
  · split at he
    · exact absurd he (by simp)
    · injection he with h
      subst h
      rfl
    · injection he with h
      subst h
      rfl
  · injection he with h
    subst h
    rfl

/-- Helper: a failed config load short-circuits the `instance create`
handler with that error and no provider call. -/
theorem instance_create_cmd_config_error (parsed : Yaml) (credsOk : Bool)
    (draw : Nat) (rr : ProviderRunResult) (reload : String → CreateView)
    (e : PyErr) (he : load_config parsed = .error e) :
    instance_create_cmd parsed credsOk draw rr reload = (.error e, []) := by
  simp [instance_create_cmd, he]

/-- Helper: on success `load_config` returns the parsed document unchanged. -/
theorem load_config_ok_eq (parsed d : Yaml) (h : load_config parsed = .ok d) :
    d = parsed := by
  by_cases ht : parsed.truthy
  · simp only [load_config, ht, if_pos] at h
    split at h
    · split at h
      · injection h with h
        exact h.symm
      · exact absurd h (by simp)
      · exact absurd h (by simp)
    · exact absurd h (by simp)
  · simp only [load_config, ht, if_neg] at h
    exact absurd h (by simp [dictGet])

/-- C8 (amended): a malformed or incomplete configuration (not a top-level
mapping, or missing the required `instance` mapping) makes `load_config`
fail, before the manager is built and before any provider call; but the
failure is a `ValueError`, not the repository's `ConfigError`, which the
source never raises. -/
theorem C8_config_failure_before_network (parsed : Yaml) (credsOk : Bool)
    (draw : Nat) (rr : ProviderRunResult) (reload : String → CreateView)
    (e : PyErr) (he : load_config parsed = .error e) :
    e.isValueError = true ∧
    instance_create_cmd parsed credsOk draw rr reload = (.error e, []) ∧
    load_config (Yaml.arr [Yaml.int 1]) =
      .error (.valueError "Configuration file must define a YAML mapping at the top level") ∧
    load_config (Yaml.map [("name", Yaml.str "x")]) =
      .error (.valueError "Missing \x27instance\x27 section in configuration") := by
  exact ⟨load_config_errors_are_valueError parsed e he,
    instance_create_cmd_config_error parsed credsOk draw rr reload e he, rfl, rfl⟩

/-- C8 witness: a top-level YAML list fails the load with a `ValueError` and
produces no provider call in the create handler. -/
theorem C8_config_failure_before_network_witness :
    PyErr.isValueError
      (.valueError "Configuration file must define a YAML mapping at the top level") = true ∧
    instance_create_cmd (Yaml.arr [Yaml.int 1]) true 0 (.success (some ["i-1"]))
      (fun _ => ⟨none, none, none⟩) =
      (.error (.valueError "Configuration file must define a YAML mapping at the top level"),
        []) := by
  have h := C8_config_failure_before_network (Yaml.arr [Yaml.int 1]) true 0
    (.success (some ["i-1"])) (fun _ => ⟨none, none, none⟩)
    (.valueError "Configuration file must define a YAML mapping at the top level") rfl
  exact ⟨h.1, h.2.1⟩

/-- C8 counterexample: the failure raised for a malformed configuration is a
`ValueError`, not a `ConfigError` — the `ConfigError` class exists in
`exceptions.py` but `load_config` raises the builtin instead. -/
theorem C8_counterexample :
    load_config (Yaml.arr [Yaml.int 1]) =
      .error (.valueError "Configuration file must define a YAML mapping at the top level") ∧
    PyErr.isConfigError
      (.valueError "Configuration file must define a YAML mapping at the top level") =
      false := by
  exact ⟨rfl, rfl⟩

/-- C9: with credentials missing or invalid at client construction, every
CLI operation fails with the `AWSAuthError` raised by `EC2Manager.__init__`,
with no provider call issued and hence no possibility of an
`OperationError` or any other fault preceding it; for the create handler
this holds whenever the config load itself succeeds (config validation is a
separate collaborator that runs before the orchestrator exists). -/
theorem C9_auth_error_first (op : CliOp)
    (body : CliOp → Except PyErr Unit × List ProviderCall) :
    cli_command false op body =
      (.error (.awsAuthError "AWS credentials not found. Use IAM roles or SSO profiles."),
        []) ∧
    PyErr.isAuthError
      (.awsAuthError "AWS credentials not found. Use IAM roles or SSO profiles.") = true ∧
    ∀ (parsed d : Yaml) (draw : Nat) (rr : ProviderRunResult)
      (reload : String → CreateView),
      load_config parsed = .ok d →
      instance_create_cmd parsed false draw rr reload =
        (.error (.awsAuthError "AWS credentials not found. Use IAM roles or SSO profiles."),
          []) := by
  refine ⟨rfl, rfl, ?_⟩
  intro parsed d draw rr reload h
  simp [instance_create_cmd, h, mkEC2Manager]

/-- C9 witness: a bare list command and a create with a well-formed config,
both without credentials. -/
theorem C9_auth_error_first_witness :
    cli_command false CliOp.instanceList (fun _ => (.ok (), [])) =
      (.error (.awsAuthError "AWS credentials not found. Use IAM roles or SSO profiles."),
        []) ∧
    instance_create_cmd (Yaml.map [("instance", Yaml.map [])]) false 0
      (.success (some ["i-1"])) (fun _ => ⟨none, none, none⟩) =
      (.error (.awsAuthError "AWS credentials not found. Use IAM roles or SSO profiles."),
        []) := by
  have h := C9_auth_error_first CliOp.instanceList (fun _ => (.ok (), []))
  exact ⟨h.1, h.2.2 (Yaml.map [("instance", Yaml.map [])])
    (Yaml.map [("instance", Yaml.map [])]) 0 (.success (some ["i-1"]))
    (fun _ => ⟨none, none, none⟩) rfl⟩

/-- Helper: if `create_instance` submitted a run request, parameter assembly
succeeded with exactly the submitted parameters. -/
theorem create_instance_run_inv (config : PyDict) (draw : Nat)
    (rr : ProviderRunResult) (reload : String → CreateView) (p : RunParams)
    (hp : runParamsOf (create_instance config draw rr reload).2 = some p) :
    build_run_params config (generate_client_token draw) = .ok p := by
  revert hp
  simp only [create_instance]
  cases hb : build_run_params config (generate_client_token draw) with
  | error e =>
      intro hp
      exact absurd hp (by simp [runParamsOf])
  | ok q =>
      intro hp
      rw [runParamsOf_submit_run] at hp
      injection hp with h
      rw [h]

/-- Helper: inversion of `build_run_params` on the count fields: each
submitted count is the `int(...)` coercion of the corresponding
`instance_cfg.get(..., 1)` value. -/
theorem build_run_params_counts (config : PyDict) (tok : ClientToken)
    (p : RunParams) (hp : build_run_params config tok = .ok p) :
    pyInt ((((dictGet config "instance").getD (.map [])).getKey "MinCount").getD
        (.int 1)) = .ok p.minCount ∧
    pyInt ((((dictGet config "instance").getD (.map [])).getKey "MaxCount").getD
        (.int 1)) = .ok p.maxCount := by
  simp only [build_run_params] at hp
  split at hp
  · exact absurd hp (by simp)
  · exact absurd hp (by simp)
  · injection hp with h
    subst h
    constructor <;> assumption

/-- C10: each count key that the instance section omits is defaulted to 1 in
the submitted run request — `MinCount` and `MaxCount` independently, so a
config omitting exactly one count keeps the other as given — and a config
with no count keys at all submits a request for exactly one instance; the
default is applied by the parameter assembly inside `create_instance`
(`int(...get("MinCount", 1))`), not by the config loader, which returns the
parsed document unchanged. -/
theorem C10_count_defaults (config : PyDict) (draw : Nat)
    (rr : ProviderRunResult) (reload : String → CreateView) :
    (∀ p : RunParams,
      runParamsOf (create_instance config draw rr reload).2 = some p →
      (((dictGet config "instance").getD (.map [])).getKey "MinCount" = none →
        p.minCount = 1) ∧
      (((dictGet config "instance").getD (.map [])).getKey "MaxCount" = none →
        p.maxCount = 1)) ∧
    (((dictGet config "instance").getD (.map [])).getKey "MinCount" = none →
      ((dictGet config "instance").getD (.map [])).getKey "MaxCount" = none →
      (runParamsOf (create_instance config draw rr reload).2).map
        (fun p => (p.minCount, p.maxCount)) = some (1, 1)) ∧
    (∀ parsed d : Yaml, load_config parsed = .ok d → d = parsed) := by
  refine ⟨?_, ?_, ?_⟩
  · intro p hp
    have hc := build_run_params_counts config (generate_client_token draw) p
      (create_instance_run_inv config draw rr reload p hp)
    constructor
    · intro hmin
      have h1 := hc.1
      rw [hmin, Option.getD_none] at h1
      simp only [pyInt] at h1
      injection h1 with h1
      omega
    · intro hmax
      have h2 := hc.2
      rw [hmax, Option.getD_none] at h2
      simp only [pyInt] at h2
      injection h2 with h2
      omega
  · intro hmin hmax
    obtain ⟨p, hp, hmin1, hmax1⟩ :=
      build_run_params_default_counts config (generate_client_token draw) hmin hmax
    rw [create_instance_submits config draw rr reload p hp]
    simp [hmin1, hmax1]
  · intro parsed d h
    exact load_config_ok_eq parsed d h

/-- C10 witness: a config giving only `MinCount: 3` submits `(3, 1)` — the
omitted `MaxCount` alone is defaulted — and a config with no count keys
submits `(1, 1)`. -/
theorem C10_count_defaults_witness :
    (runParamsOf (create_instance
        [("instance", Yaml.map [("MinCount", Yaml.int 3)])] 0
        (.success (some ["i-1"])) (fun _ => ⟨none, none, none⟩)).2).map
        (fun p => (p.minCount, p.maxCount)) = some (3, 1) ∧
    (runParamsOf (create_instance [("instance", Yaml.map [])] 0
        (.success (some ["i-1"])) (fun _ => ⟨none, none, none⟩)).2).map
        (fun p => (p.minCount, p.maxCount)) = some (1, 1) := by
  have h := C10_count_defaults [("instance", Yaml.map [("MinCount", Yaml.int 3)])] 0
    (.success (some ["i-1"])) (fun _ => ⟨none, none, none⟩)
  have h2 := C10_count_defaults [("instance", Yaml.map [])] 0
    (.success (some ["i-1"])) (fun _ => ⟨none, none, none⟩)
  have hp3 : runParamsOf (create_instance
      [("instance", Yaml.map [("MinCount", Yaml.int 3)])] 0
      (.success (some ["i-1"])) (fun _ => ⟨none, none, none⟩)).2 =
      some (RunParams.mk none none 3 1 (generate_client_token 0) none none none
        none none) := rfl
  have hmax1 : (RunParams.mk none none 3 1 (generate_client_token 0) none none
      none none none).maxCount = 1 := (h.1 _ hp3).2 rfl
  refine ⟨?_, h2.2.1 rfl rfl⟩
  rw [hp3, hmax1.symm]
  rfl

end EC2Cli
